import Mathlib

/-!
Verification of the rev Firmata gateway (daftfox/rev).

Shallow embedding of the per-device session code in src/src/domain/board.ts,
the connection service in src/src/service/board-service.ts and the
LedController variant (src/unnamed/part_001), together with theorems checking
the frozen claims about them.

JavaScript semantics that matter here are made explicit:
  - number values reaching the session through parseInt are either integers
    or NaN (never null), modelled by JsVal;
  - Array.prototype.splice with a negative start counts from the end, so
    splice(indexOf(x), 1) removes the LAST element when x is absent
    (indexOf returns -1);
  - property access on undefined (for example pins[NaN].supportedModes)
    raises a TypeError.
-/

namespace Rev

/-- A JavaScript value in a numeric position: null, NaN, or an integer.
parseInt never produces null; undefined arguments parse to NaN. -/
inductive JsVal where
  | null
  | nan
  | num (n : Int)
  deriving DecidableEq, Repr

/-- Leading decimal digits of a character list (the prefix parseInt consumes). -/
def leadingDigits : List Char → List Char
  | [] => []
  | c :: cs => if c.isDigit then c :: leadingDigits cs else []

/-- JavaScript parseInt(s, 10) applied to an optional string argument
(none models an undefined argument, as when a parameter is missing).
Skips whitespace, consumes an optional sign and then leading digits;
yields NaN when no digits are found. -/
def parseInt10 (s : Option String) : JsVal :=
  match s with
  | none => JsVal.nan
  | some str =>
    let cs := str.data.dropWhile (fun c => c.isWhitespace)
    let signAndRest : Int × List Char :=
      match cs with
      | '-' :: t => (-1, t)
      | '+' :: t => (1, t)
      | _ => (1, cs)
    let ds := leadingDigits signAndRest.2
    if ds.isEmpty then JsVal.nan
    else JsVal.num (signAndRest.1 * (ds.foldl (fun a c => a * 10 + (c.toNat - 48)) 0 : Nat))

/-- FirmataBoard.PIN_MODE.ANALOG -/
def PIN_MODE_ANALOG : Nat := 2

/-- FirmataBoard.PIN_STATE.HIGH -/
def PIN_STATE_HIGH : Nat := 1

/-- FirmataBoard.PIN_STATE.LOW -/
def PIN_STATE_LOW : Nat := 0

/-- One entry of firmataBoard.pins: a pin descriptor. -/
structure Pin where
  supportedModes : List Nat
  analogChannel : Nat
  value : Nat
  mode : Nat
  deriving DecidableEq, Repr

/-- JavaScript array indexing pins[i] with a JsVal index: any non-integer or
out-of-range index reads undefined (modelled as none). -/
def jsPinAt (pins : List Pin) : JsVal → Option Pin
  | JsVal.num n => if n < 0 then none else pins.get? n.toNat
  | _ => none

/-- Board.isAnalogPin: pins[pinIndex].supportedModes.includes(PIN_MODE.ANALOG).
none models the TypeError raised when pins[pinIndex] is undefined. -/
def isAnalogPin (pins : List Pin) (pinIndex : JsVal) : Option Bool :=
  match jsPinAt pins pinIndex with
  | none => none
  | some pin => some (pin.supportedModes.contains PIN_MODE_ANALOG)

/-- Board.isDigitalPin: analogChannel is 127, supportedModes non-empty and
ANALOG not among them. none models the TypeError on an undefined pin. -/
def isDigitalPin (pins : List Pin) (pinIndex : JsVal) : Option Bool :=
  match jsPinAt pins pinIndex with
  | none => none
  | some pin =>
    some (pin.analogChannel == 127 && pin.supportedModes.length > 0 &&
          !(pin.supportedModes.contains PIN_MODE_ANALOG))

/-- Errors a session method can raise. commandMalformed and
commandUnavailable are the error classes thrown by board.ts; typeError is
the JavaScript runtime error raised by property access on undefined;
jsError is the plain Error thrown by the LedController parameter check. -/
inductive BoardError where
  | commandMalformed
  | commandUnavailable
  | typeError
  | jsError
  deriving DecidableEq, Repr

/-- One element of a LedController payload array: the source mixes
single-character strings (header, command letter, footer) and numbers. -/
inductive PayloadElem where
  | str (s : String)
  | val (v : JsVal)
  deriving DecidableEq, Repr

/-- Observable side effects of session methods on the device and the
outward event stream. -/
inductive Effect where
  | analogWrite (pin value : JsVal)
  | digitalWrite (pin value : JsVal)
  | warn
  | emitUpdate
  | emitDisconnect
  | queryFirmware
  | timerStarted (id ms : Nat)
  | serialWrite (port : Nat) (payload : List PayloadElem)
  deriving DecidableEq, Repr

/-- Board.setPinValue (board.ts lines 493-512): guards comparing pin and
value against null, then analog / digital dispatch, then emitUpdate.
Returns the effects performed and the error raised, if any. -/
def setPinValue (pins : List Pin) (pin value : JsVal) : List Effect × Option BoardError :=
  if pin = JsVal.null then ([], some BoardError.commandMalformed)
  else if value = JsVal.null then ([], some BoardError.commandMalformed)
  else
    match isAnalogPin pins pin with
    | none => ([], some BoardError.typeError)
    | some true => ([Effect.analogWrite pin value, Effect.emitUpdate], none)
    | some false =>
      match isDigitalPin pins pin with
      | none => ([], some BoardError.typeError)
      | some true =>
        if value ≠ JsVal.num 1 ∧ value ≠ JsVal.num 0 then
          ([Effect.warn, Effect.emitUpdate], none)
        else
          ([Effect.digitalWrite pin value, Effect.emitUpdate], none)
      | some false => ([Effect.emitUpdate], none)

/-- JavaScript Array.prototype.indexOf: index of the first occurrence. -/
def indexOfFirst {α} [DecidableEq α] : List α → α → Option Nat
  | [], _ => none
  | y :: ys, x => if y = x then some 0 else (indexOfFirst ys x).map (fun i => i + 1)

/-- indexOf applied to a possibly null/undefined handle: -1 when absent
(JavaScript indexOf returns -1 for a missing element, and null or undefined
is never among the stored timer handles). -/
def jsIndexOf {α} [DecidableEq α] (xs : List α) : Option α → Int
  | none => -1
  | some x =>
    match indexOfFirst xs x with
    | some i => (i : Int)
    | none => -1

/-- JavaScript Array.prototype.splice(start, 1): removes one element at
start; a negative start counts from the end of the array
(start is clamped to max(length + start, 0)). -/
def spliceRemoveOne (xs : List Nat) (start : Int) : List Nat :=
  let s : Nat := (if start < 0 then max ((xs.length : Int) + start) 0 else start).toNat
  xs.take s ++ xs.drop (s + 1)

/-- The global clearInterval / clearTimeout: removes the handle from the
runtime's pending timers; a null/undefined or unknown handle is a no-op. -/
def globalClearTimer (live : List Nat) : Option Nat → List Nat
  | none => live
  | some h => live.erase h

/-- Registered event listeners, by event name. -/
abbrev Listeners := List String

/-- Session state of a Board instance (board.ts fields): the online flag,
currentProgram, the tracked interval and timeout handle arrays, the
blinkInterval and heartbeatTimeout fields, the listeners registered on the
firmataBoard, and the pin table. liveTimers is the runtime's set of
pending timers started by this session (ghost state used to express which
timers can still fire). -/
structure BoardState where
  online : Bool
  currentProgram : String
  intervals : List Nat
  timeouts : List Nat
  liveTimers : List Nat
  blinkInterval : Option Nat
  heartbeatTimeout : Option Nat
  listeners : Listeners
  pins : List Pin
  analogPins : List Nat
  deriving DecidableEq, Repr

/-- Board.currentProgram default (exported constant IDLE in board.ts). -/
def IDLE : String := "idle"

/-- Board.clearInterval (board.ts lines 371-374):
intervals.splice(intervals.indexOf(interval), 1), then the global
clearInterval. Note splice receives -1 when the handle is not tracked. -/
def clearInterval (st : BoardState) (interval : Option Nat) : BoardState :=
  { st with
    intervals := spliceRemoveOne st.intervals (jsIndexOf st.intervals interval),
    liveTimers := globalClearTimer st.liveTimers interval }

/-- Board.clearTimeout (board.ts lines 382-385): same shape on the
timeouts array. -/
def clearTimeout (st : BoardState) (timeout : Option Nat) : BoardState :=
  { st with
    timeouts := spliceRemoveOne st.timeouts (jsIndexOf st.timeouts timeout),
    liveTimers := globalClearTimer st.liveTimers timeout }

/-- Board.clearAllIntervals: global clearInterval on every tracked handle,
then intervals = []. -/
def clearAllIntervals (st : BoardState) : BoardState :=
  { st with
    liveTimers := st.intervals.foldl (fun live h => live.erase h) st.liveTimers,
    intervals := [] }

/-- Board.clearAllTimeouts: global clearTimeout on every tracked handle,
then timeouts = []. -/
def clearAllTimeouts (st : BoardState) : BoardState :=
  { st with
    liveTimers := st.timeouts.foldl (fun live h => live.erase h) st.liveTimers,
    timeouts := [] }

/-- Event name used by firmata for digital reads on pin i. -/
def digitalReadEvent (i : Nat) : String := "digital-read-" ++ toString i

/-- Event name used by firmata for analog reads on channel i. -/
def analogReadEvent (i : Nat) : String := "analog-read-" ++ toString i

/-- Board.clearListeners (board.ts lines 351-363): removeListener for
digital-read-i on every digital pin, analog-read-i for every analog
channel, and queryfirmware. -/
def clearListeners (st : BoardState) : BoardState :=
  let afterDigital :=
    (List.range st.pins.length).foldl
      (fun ls (i : Nat) =>
        if isDigitalPin st.pins (JsVal.num (i : Int)) = some true then
          ls.erase (digitalReadEvent i)
        else ls)
      st.listeners
  let afterAnalog :=
    (List.range st.analogPins.length).foldl (fun ls i => ls.erase (analogReadEvent i))
      afterDigital
  { st with listeners := afterAnalog.erase "queryfirmware" }

/-- Board.clearAllTimers (board.ts lines 345-349). -/
def clearAllTimers (st : BoardState) : BoardState :=
  clearListeners (clearAllTimeouts (clearAllIntervals st))

/-- Board.disconnect (board.ts lines 334-338): clearAllTimers, online =
false, firmataBoard.removeAllListeners(). -/
def disconnect (st : BoardState) : BoardState :=
  let st1 := clearAllTimers st
  { st1 with online := false, listeners := [] }

/-- Board.heartbeatInterval (board.ts line 191): the setInterval period of
the heartbeat loop, in milliseconds. -/
def heartbeatIntervalMs : Nat := 5000

/-- The setTimeout delay armed inside the heartbeat interval body
(board.ts line 446): the reply deadline, in milliseconds. -/
def heartbeatDeadlineMs : Nat := 3000

/-- Board.resetHeartbeatTimeout (board.ts lines 457-460): clearTimeout on
the stored heartbeatTimeout handle, then heartbeatTimeout = null. This is
the callback passed to queryFirmware, so a firmware reply cancels the
armed deadline. -/
def resetHeartbeatTimeout (st : BoardState) : BoardState :=
  let st1 := clearTimeout st st.heartbeatTimeout
  { st1 with heartbeatTimeout := none }

/-- One firing of the heartbeat interval body (board.ts lines 436-452):
arm the deadline timeout (handle fresh) with delay heartbeatDeadlineMs,
push it onto timeouts, and send queryFirmware with resetHeartbeatTimeout
as the reply callback. -/
def heartbeatTick (st : BoardState) (fresh : Nat) : BoardState × List Effect :=
  let st1 :=
    { st with
      heartbeatTimeout := some fresh,
      timeouts := st.timeouts ++ [fresh],
      liveTimers := st.liveTimers ++ [fresh] }
  (st1, [Effect.timerStarted fresh heartbeatDeadlineMs, Effect.queryFirmware])

/-- The heartbeat deadline handler (board.ts lines 439-446), run when the
armed timeout expires without a firmware reply: the fired timeout leaves
the runtime's pending set, then the handler emits a disconnect event on
the firmataBoard, clears the heartbeat interval (handle hb) and calls
resetHeartbeatTimeout. -/
def heartbeatExpire (st : BoardState) (hb : Nat) : BoardState × List Effect :=
  let fired :=
    { st with
      liveTimers :=
        match st.heartbeatTimeout with
        | some t => st.liveTimers.erase t
        | none => st.liveTimers }
  let st1 := clearInterval fired (some hb)
  let st2 := resetHeartbeatTimeout st1
  (st2, [Effect.emitDisconnect])

/-- Board.pinout.LED (board.ts lines 150-154, Wemos D1 mini default). -/
def pinoutLED : Nat := 2

/-- Board.getAvailableActions: Object.keys of the availableActions table
(board.ts lines 101-106, 228-230), in insertion order. -/
def getAvailableActions : List String :=
  ["BLINKON", "BLINKOFF", "TOGGLELED", "SETPINVALUE"]

/-- Board.isAvailableAction (board.ts lines 585-587):
getAvailableActions().indexOf(action) >= 0. -/
def isAvailableAction (action : String) : Bool :=
  decide (0 ≤ jsIndexOf getAvailableActions (some action))

/-- Board.enableBlinkLed (board.ts lines 394-414). fresh is the handle the
runtime would assign to the new blink interval. On disable: setIdle, then
clearInterval(blinkInterval) -- blinkInterval may be undefined when no
blink was running -- then blinkInterval = null. -/
def enableBlinkLed (st : BoardState) (fresh : Nat) (enable : Bool) :
    BoardState × List Effect × Option BoardError :=
  if enable then
    match st.blinkInterval with
    | some _ => (st, [Effect.warn], none)
    | none =>
      let st1 :=
        { st with
          blinkInterval := some fresh,
          intervals := st.intervals ++ [fresh],
          liveTimers := st.liveTimers ++ [fresh] }
      (st1, [Effect.timerStarted fresh 500], none)
  else
    let st1 := { st with currentProgram := IDLE }
    let st2 := clearInterval st1 st1.blinkInterval
    ({ st2 with blinkInterval := none }, [], none)

/-- Board.toggleLED (board.ts lines 422-424): setPinValue(pinout.LED,
pins[pinout.LED].value === HIGH ? LOW : HIGH). Reading .value of an
undefined pin raises a TypeError. -/
def toggleLED (st : BoardState) : BoardState × List Effect × Option BoardError :=
  match st.pins.get? pinoutLED with
  | none => (st, [], some BoardError.typeError)
  | some p =>
    let v : Int := if p.value = PIN_STATE_HIGH then PIN_STATE_LOW else PIN_STATE_HIGH
    let r := setPinValue st.pins (JsVal.num (pinoutLED : Int)) (JsVal.num v)
    (st, r.1, r.2)

/-- The SETPINVALUE entry of availableActions (board.ts line 105):
setPinValue(parseInt(pin, 10), parseInt(value, 10)); a missing parameter
arrives as undefined and parses to NaN. -/
def actionSetPinValue (st : BoardState) (params : List String) :
    BoardState × List Effect × Option BoardError :=
  let r := setPinValue st.pins (parseInt10 (params.get? 0)) (parseInt10 (params.get? 1))
  (st, r.1, r.2)

/-- The availableActions table (board.ts lines 101-106): routes an action
name to its handler. fresh is the timer handle for handlers that start a
timer. Only called with names in getAvailableActions. -/
def dispatch (st : BoardState) (fresh : Nat) (action : String) (params : List String) :
    BoardState × List Effect × Option BoardError :=
  if action = "BLINKON" then enableBlinkLed st fresh true
  else if action = "BLINKOFF" then enableBlinkLed st fresh false
  else if action = "TOGGLELED" then toggleLED st
  else if action = "SETPINVALUE" then actionSetPinValue st params
  else (st, [], none)

/-- Board.executeAction (board.ts lines 318-332): throw CommandUnavailable
if the name is not in the table; otherwise invoke the handler (spreading
the parameters) and, if it returned normally, emitUpdate. -/
def executeAction (st : BoardState) (fresh : Nat) (action : String) (params : List String) :
    BoardState × List Effect × Option BoardError :=
  if !isAvailableAction action then (st, [], some BoardError.commandUnavailable)
  else
    match dispatch st fresh action params with
    | (st1, effs, none) => (st1, effs ++ [Effect.emitUpdate], none)
    | (st1, effs, some e) => (st1, effs, some e)

/-- One entry of the discrete snapshot's pins array:
Object.assign({ pinNumber: index, analog: pin.analogChannel != 127 }, pin)
(board.ts line 290). -/
structure DiscretePin where
  pinNumber : Nat
  analog : Bool
  supportedModes : List Nat
  analogChannel : Nat
  value : Nat
  mode : Nat
  deriving DecidableEq, Repr

/-- The object built for pin p at index i in toDiscrete's map step. -/
def toDiscretePin (i : Nat) (p : Pin) : DiscretePin :=
  { pinNumber := i, analog := p.analogChannel != 127,
    supportedModes := p.supportedModes, analogChannel := p.analogChannel,
    value := p.value, mode := p.mode }

/-- The pins array of the discrete snapshot (board.ts lines 288-292):
map each pin to its tagged object, then filter to those with a non-empty
supportedModes list. -/
def toDiscretePins (pins : List Pin) : List DiscretePin :=
  (pins.enum.map (fun ip => toDiscretePin ip.1 ip.2)).filter
    (fun dp => dp.supportedModes.length > 0)

/-- The discrete snapshot (board.ts toDiscrete, lines 271-296), for a
session with a firmataBoard present. -/
structure DiscreteBoard where
  id : String
  name : String
  currentProgram : String
  online : Bool
  commands : List String
  pins : List DiscretePin
  deriving DecidableEq, Repr

/-- Board.toDiscrete (board.ts lines 271-296): the scalar fields, commands
from getAvailableActions, and the mapped-and-filtered pins array. -/
def toDiscrete (st : BoardState) (id name : String) : DiscreteBoard :=
  { id := id, name := name, currentProgram := st.currentProgram,
    online := st.online, commands := getAvailableActions,
    pins := toDiscretePins st.pins }

/-- The callback attachAnalogPinListeners registers for analog-read events
in board.ts (lines 536-540): it is this.emitUpdate itself, so it emits an
update on every analog reading, independent of previousAnalogValue (the
signature matches compareAnalogReadout for comparison). -/
def analogReadCallback (previousAnalogValue : Nat → Option Nat) (_pinIndex _value : Nat) :
    (Nat → Option Nat) × List Effect :=
  (previousAnalogValue, [Effect.emitUpdate])

/-- Board.compareAnalogReadout (board.ts lines 549-554): store the value
and emitUpdate only when it differs from previousAnalogValue[pinIndex]
(an unset entry reads undefined and always differs). Defined in board.ts
but not referenced by attachAnalogPinListeners. -/
def compareAnalogReadout (previousAnalogValue : Nat → Option Nat) (pinIndex value : Nat) :
    (Nat → Option Nat) × List Effect :=
  if previousAnalogValue pinIndex ≠ some value then
    (fun i => if i = pinIndex then some value else previousAnalogValue i, [Effect.emitUpdate])
  else
    (previousAnalogValue, [])

/-- The callback attachDigitalPinListeners registers for digital-read
events (board.ts lines 521-527): this.emitUpdate, on every callback. -/
def digitalReadCallback : List Effect := [Effect.emitUpdate]

/-- LedController.PAYLOAD_HEADER (part_001 line 20). -/
def PAYLOAD_HEADER : String := "["

/-- LedController.PAYLOAD_FOOTER (part_001 line 21). -/
def PAYLOAD_FOOTER : String := "]"

/-- LedController.LED_COMMANDS (part_001 lines 23-30). -/
structure LedCommands where
  SETCOLOR : String
  PULSECOLOR : String
  SETBRIGHTNESS : String
  RAINBOW : String
  RETRO : String
  KITT : String
  deriving DecidableEq, Repr

def LED_COMMANDS : LedCommands :=
  { SETCOLOR := "C", PULSECOLOR := "P", SETBRIGHTNESS := "B",
    RAINBOW := "R", RETRO := "8", KITT := "K" }

/-- firmata's SERIAL_PORT_IDs.SW_SERIAL0: software serial port 0. -/
def SW_SERIAL0 : Nat := 8

/-- Modelled from the spec: Board.is8BitNumber is called by the
LedController source (part_001 line 76) but is defined in a board.ts
revision that is not among the sources. The spec states that LED
controller action parameters must each fit in 8 bits, i.e. be integers in
the range 0 to 255; NaN (an unparseable parameter) does not qualify. -/
def is8BitNumber : JsVal → Bool
  | JsVal.num n => decide (0 ≤ n) && decide (n ≤ 255)
  | _ => false

/-- LedController.parametersAreValid (part_001 lines 74-79): map
is8BitNumber over the arguments and require that no result is false. -/
def parametersAreValid (args : List JsVal) : Bool :=
  !((args.map is8BitNumber).contains false)

/-- LedController.buildPayload (part_001 lines 70-72):
[PAYLOAD_HEADER, command, ...parameters, PAYLOAD_FOOTER]. -/
def buildPayload (command : String) (parameters : List JsVal) : List PayloadElem :=
  [PayloadElem.str PAYLOAD_HEADER, PayloadElem.str command] ++
    parameters.map PayloadElem.val ++ [PayloadElem.str PAYLOAD_FOOTER]

/-- LedController.setColor (part_001 lines 89-95): validate the three
parameters, throwing a plain Error when one is out of range, otherwise
write buildPayload(LED_COMMANDS.SETCOLOR, hue, saturation, value) through
the serial passthrough on software serial port 0. -/
def setColor (hue saturation value : JsVal) : List Effect × Option BoardError :=
  if !parametersAreValid [hue, saturation, value] then ([], some BoardError.jsError)
  else
    ([Effect.serialWrite SW_SERIAL0
        (buildPayload LED_COMMANDS.SETCOLOR [hue, saturation, value])], none)

/-- The SETCOLOR entry of the LedController action table (part_001 line
54): setColor(parseInt(hue, 10), parseInt(saturation, 10),
parseInt(value, 10)). -/
def actionSetColor (params : List String) : List Effect × Option BoardError :=
  setColor (parseInt10 (params.get? 0)) (parseInt10 (params.get? 1))
    (parseInt10 (params.get? 2))

/-- Events a connection attempt in BoardService.connectToBoard can
observe: the 10 second connection timer firing, and the firmataBoard
events the service subscribes to. -/
inductive SvcEvent where
  | timeout
  | queryfirmware
  | ready
  | disconnectEvent
  | closeEvent
  deriving DecidableEq, Repr

/-- Observable effects of BoardService.connectToBoard handlers. -/
inductive ServiceEffect where
  | logWarn
  | removeAllListeners
  | invokeConnectedCallback (outcome : Bool)
  | invokeDisconnectedCallback
  | addBoardToModel
  | removeBoardFromModel
  | clearConnectionTimeout
  | closeLink
  deriving DecidableEq, Repr

/-- State of one BoardService.connectToBoard attempt
(board-service.ts lines 32-98). -/
structure ServiceState where
  listenersActive : Bool
  timeoutPending : Bool
  boardCreated : Bool
  boardAdded : Bool
  deriving DecidableEq, Repr

/-- The state right after connectToBoard registered its handlers: the
firmataBoard listeners are attached, the 10 s timeout is pending, no
board object exists yet and nothing was added to the model. -/
def initialServiceState : ServiceState :=
  { listenersActive := true, timeoutPending := true,
    boardCreated := false, boardAdded := false }

/-- The connection timeout in BoardService.connectToBoard
(board-service.ts line 46), in milliseconds. -/
def connectionTimeoutMs : Nat := 10000

/-- One step of a connectToBoard attempt (board-service.ts lines 41-97).
The timeout handler logs a warning, drops the board reference, removes
every listener from the firmataBoard and invokes the connect-callback
with false; it does not close the link. The queryfirmware handler creates
the board object; the ready handler adds the board to the model, invokes
the connect-callback with the board and clears the timeout; the
disconnect and close handlers remove the board from the model and invoke
the disconnected-callback. Handlers other than the timeout run only while
the listeners are attached; the timeout runs only while pending. -/
def svcStep (st : ServiceState) : SvcEvent → ServiceState × List ServiceEffect
  | SvcEvent.timeout =>
    if st.timeoutPending then
      ({ st with timeoutPending := false, boardCreated := false, listenersActive := false },
       [ServiceEffect.logWarn, ServiceEffect.removeAllListeners,
        ServiceEffect.invokeConnectedCallback false])
    else (st, [])
  | SvcEvent.queryfirmware =>
    if st.listenersActive then ({ st with boardCreated := true }, []) else (st, [])
  | SvcEvent.ready =>
    if st.listenersActive then
      ({ st with boardAdded := true, timeoutPending := false },
       [ServiceEffect.addBoardToModel,
        ServiceEffect.invokeConnectedCallback st.boardCreated,
        ServiceEffect.clearConnectionTimeout])
    else (st, [])
  | SvcEvent.disconnectEvent =>
    if st.listenersActive then
      (st, [ServiceEffect.removeBoardFromModel, ServiceEffect.invokeDisconnectedCallback])
    else (st, [])
  | SvcEvent.closeEvent =>
    if st.listenersActive then
      (st, [ServiceEffect.removeBoardFromModel, ServiceEffect.invokeDisconnectedCallback])
    else (st, [])

/-- Run a connectToBoard attempt over a sequence of events, accumulating
effects. -/
def svcRun (st : ServiceState) : List SvcEvent → ServiceState × List ServiceEffect
  | [] => (st, [])
  | e :: es =>
    let r := svcStep st e
    let rest := svcRun r.1 es
    (rest.1, r.2 ++ rest.2)

/-- A session state with no pins, timers or listeners (used to build
concrete test states). -/
def emptyState : BoardState :=
  { online := true, currentProgram := IDLE, intervals := [], timeouts := [],
    liveTimers := [], blinkInterval := none, heartbeatTimeout := none,
    listeners := [], pins := [], analogPins := [] }

/-- A digital pin descriptor: not an analog channel, INPUT and OUTPUT
supported, ANALOG not supported. -/
def digitalPin : Pin :=
  { supportedModes := [0, 1], analogChannel := 127, value := 0, mode := 1 }

/-- An analog pin descriptor on analog channel 0. -/
def analogPin : Pin :=
  { supportedModes := [0, PIN_MODE_ANALOG], analogChannel := 0, value := 0, mode := 2 }

/-- A pin with no supported modes (filtered out of discrete snapshots). -/
def barePin : Pin :=
  { supportedModes := [], analogChannel := 127, value := 0, mode := 0 }

/-- A session right after the constructor ran: the heartbeat interval
(handle 5) is tracked and pending, the queryfirmware listener is
registered, no blink interval was ever started. -/
def c3Start : BoardState :=
  { emptyState with intervals := [5], liveTimers := [5], listeners := ["queryfirmware"] }

/-- A session tracking interval handle 7 and timeout handle 7 while those
timers are pending. -/
def c8State : BoardState :=
  { emptyState with intervals := [7], timeouts := [7], liveTimers := [7] }

/-- A session whose pins 0, 1 and 2 are digital. -/
def c5State : BoardState :=
  { emptyState with pins := [digitalPin, digitalPin, digitalPin] }

/-- A session whose only tracked timer is the heartbeat interval,
handle 3. -/
def c2State : BoardState :=
  { emptyState with intervals := [3], liveTimers := [3] }

/-- A session with a digital pin 0, an analog pin 1 and a mode-less
pin 2. -/
def c10State : BoardState :=
  { emptyState with pins := [digitalPin, analogPin, barePin] }

end Rev

open Rev

/-- A pin that satisfies isDigitalPin does not satisfy isAnalogPin. -/
theorem isDigitalPin_not_analog (pins : List Pin) (idx : JsVal)
    (h : isDigitalPin pins idx = some true) : isAnalogPin pins idx = some false := by
  unfold isDigitalPin at h
  unfold isAnalogPin
  cases hp : jsPinAt pins idx with
  | none => rw [hp] at h; cases h
  | some p =>
    rw [hp] at h
    simp only [Option.some.injEq, Bool.and_eq_true, Bool.not_eq_true'] at h
    simp only [Option.some.injEq]
    exact h.2

/-- Claim C1 (evaluation of the code at the failing input): with
previousAnalogValue[0] already equal to 42, the analog-read callback that
board.ts actually registers (emitUpdate itself) still emits an update on
a repeated reading of 42, while the change-detecting compareAnalogReadout
-- defined in board.ts but never wired -- emits nothing; digital-read
callbacks emit on every callback. -/
theorem c1_analog_callback_emits_unconditionally :
    (analogReadCallback (fun _ => some 42) 0 42).2 = [Effect.emitUpdate] ∧
    (compareAnalogReadout (fun _ => some 42) 0 42).2 = [] ∧
    digitalReadCallback = [Effect.emitUpdate] :=
  ⟨rfl, rfl, rfl⟩

/-- Claim C2 (counterexample to the stated timing): the heartbeat loop
does not run every 3 seconds with a 2 second deadline; board.ts uses a
5000 ms interval and a 3000 ms deadline. -/
theorem c2_heartbeat_constants_counterexample :
    ¬(heartbeatIntervalMs = 3000 ∧ heartbeatDeadlineMs = 2000) := by
  decide

/-- Claim C2 (amended): the heartbeat loop fires every 5 seconds; each
firing arms a 3 second deadline (tracked in timeouts and stored in
heartbeatTimeout) and sends a queryFirmware request; a firmware reply
cancels the deadline (the handle leaves timeouts, the live timer is
cleared and heartbeatTimeout is nulled); on deadline expiry the session
emits an internal disconnect event and clears the heartbeat interval. -/
theorem c2_heartbeat_amended (st : BoardState) (hb fresh : Nat)
    (hi : st.intervals = [hb]) (ht : st.timeouts = [])
    (hl : fresh ∉ st.liveTimers) :
    heartbeatIntervalMs = 5000 ∧ heartbeatDeadlineMs = 3000 ∧
    (heartbeatTick st fresh).2 =
      [Effect.timerStarted fresh heartbeatDeadlineMs, Effect.queryFirmware] ∧
    (heartbeatTick st fresh).1.heartbeatTimeout = some fresh ∧
    (heartbeatTick st fresh).1.timeouts = [fresh] ∧
    (resetHeartbeatTimeout (heartbeatTick st fresh).1).timeouts = [] ∧
    (resetHeartbeatTimeout (heartbeatTick st fresh).1).heartbeatTimeout = none ∧
    fresh ∉ (resetHeartbeatTimeout (heartbeatTick st fresh).1).liveTimers ∧
    (heartbeatExpire (heartbeatTick st fresh).1 hb).2 = [Effect.emitDisconnect] ∧
    (heartbeatExpire (heartbeatTick st fresh).1 hb).1.intervals = [] ∧
    (heartbeatExpire (heartbeatTick st fresh).1 hb).1.heartbeatTimeout = none := by
  refine ⟨rfl, rfl, rfl, rfl, ?_, ?_, rfl, ?_, rfl, ?_, rfl⟩
  · simp [heartbeatTick, ht]
  · simp [resetHeartbeatTimeout, clearTimeout, heartbeatTick, ht, jsIndexOf,
      indexOfFirst, spliceRemoveOne]
  · simp [resetHeartbeatTimeout, clearTimeout, heartbeatTick, globalClearTimer,
      List.erase_append_right _ hl, hl]
  · simp [heartbeatExpire, resetHeartbeatTimeout, clearTimeout, clearInterval,
      heartbeatTick, hi, jsIndexOf, indexOfFirst, spliceRemoveOne]

/-- Claim C2 witness: the amended heartbeat behavior at a concrete
session state (heartbeat interval handle 3, deadline handle 4). -/
theorem c2_heartbeat_amended_witness :
    heartbeatIntervalMs = 5000 ∧ heartbeatDeadlineMs = 3000 ∧
    (heartbeatTick c2State 4).2 =
      [Effect.timerStarted 4 heartbeatDeadlineMs, Effect.queryFirmware] ∧
    (heartbeatTick c2State 4).1.heartbeatTimeout = some 4 ∧
    (heartbeatTick c2State 4).1.timeouts = [4] ∧
    (resetHeartbeatTimeout (heartbeatTick c2State 4).1).timeouts = [] ∧
    (resetHeartbeatTimeout (heartbeatTick c2State 4).1).heartbeatTimeout = none ∧
    4 ∉ (resetHeartbeatTimeout (heartbeatTick c2State 4).1).liveTimers ∧
    (heartbeatExpire (heartbeatTick c2State 4).1 3).2 = [Effect.emitDisconnect] ∧
    (heartbeatExpire (heartbeatTick c2State 4).1 3).1.intervals = [] ∧
    (heartbeatExpire (heartbeatTick c2State 4).1 3).1.heartbeatTimeout = none :=
  c2_heartbeat_amended c2State 3 4 rfl rfl (by decide)

/-- Claim C3 (evaluation of the code at the failing input): in a session
whose only tracked and pending timer is the heartbeat interval (handle
5), executing BLINKOFF without a prior BLINKON makes clearInterval splice
at index -1, evicting the heartbeat interval from the tracked list
without clearing it; a subsequent disconnect() then sets online to false
and removes all listeners but leaves the heartbeat interval pending, so
it still fires afterwards. -/
theorem c3_disconnect_leaves_live_heartbeat :
    (executeAction c3Start 9 "BLINKOFF" []).1.intervals = [] ∧
    (disconnect (executeAction c3Start 9 "BLINKOFF" []).1).liveTimers = [5] ∧
    (disconnect (executeAction c3Start 9 "BLINKOFF" []).1).online = false ∧
    (disconnect (executeAction c3Start 9 "BLINKOFF" []).1).listeners = [] := by
  decide

/-- Claim C4: executeAction with a name outside the action table fails
with CommandUnavailable, returning the session state unchanged with no
effect performed; with a name in the table it invokes the table's handler
(dispatch) and, on normal return, emits an update. -/
theorem c4_executeAction_unavailable (st : BoardState) (fresh : Nat)
    (action : String) (params : List String) :
    (isAvailableAction action = false →
      executeAction st fresh action params = (st, [], some BoardError.commandUnavailable)) ∧
    (isAvailableAction action = true →
      executeAction st fresh action params =
        (match dispatch st fresh action params with
         | (st1, effs, none) => (st1, effs ++ [Effect.emitUpdate], none)
         | (st1, effs, some e) => (st1, effs, some e))) := by
  constructor <;> intro h <;> simp [executeAction, h]

/-- Claim C4 witness: the unknown action RESET fails with
CommandUnavailable and leaves the session untouched. -/
theorem c4_executeAction_unavailable_witness :
    isAvailableAction "RESET" = false ∧
    executeAction emptyState 9 "RESET" [] =
      (emptyState, [], some BoardError.commandUnavailable) :=
  ⟨by decide, (c4_executeAction_unavailable emptyState 9 "RESET" []).1 (by decide)⟩

/-- Claim C5 (evaluation of the code at the failing inputs): on a board
whose pin 2 is digital, SETPINVALUE with the value parameter missing does
not fail at all (parseInt yields NaN, the null-guards do not fire, and
the NaN value merely logs a warning and emits updates); SETPINVALUE with
an unparseable pin parameter fails with a TypeError on the pin lookup,
not with CommandMalformed. -/
theorem c5_setpinvalue_missing_param_not_malformed :
    executeAction c5State 9 "SETPINVALUE" ["2"] =
      (c5State, [Effect.warn, Effect.emitUpdate, Effect.emitUpdate], none) ∧
    executeAction c5State 9 "SETPINVALUE" ["abc", "1"] =
      (c5State, [], some BoardError.typeError) := by
  decide

/-- Claim C6: LedController setColor with 8-bit parameters writes exactly
the payload header, the C command letter, the three parameters and the
footer through the serial passthrough on software serial port 0; a
parameter out of range (300) throws with nothing written. -/
theorem c6_setColor_payload (h s v : Int)
    (hh : 0 ≤ h ∧ h ≤ 255) (hs : 0 ≤ s ∧ s ≤ 255) (hv : 0 ≤ v ∧ v ≤ 255) :
    setColor (JsVal.num h) (JsVal.num s) (JsVal.num v) =
      ([Effect.serialWrite SW_SERIAL0
          [PayloadElem.str PAYLOAD_HEADER, PayloadElem.str LED_COMMANDS.SETCOLOR,
           PayloadElem.val (JsVal.num h), PayloadElem.val (JsVal.num s),
           PayloadElem.val (JsVal.num v), PayloadElem.str PAYLOAD_FOOTER]], none) ∧
    setColor (JsVal.num 300) (JsVal.num s) (JsVal.num v) = ([], some BoardError.jsError) := by
  constructor
  · simp [setColor, parametersAreValid, is8BitNumber, buildPayload,
      hh.1, hh.2, hs.1, hs.2, hv.1, hv.2]
  · simp [setColor, parametersAreValid, is8BitNumber]

/-- Claim C6 witness: the spec's concrete scenario, SETCOLOR with 255,
128, 64 and then with 300 out of range. -/
theorem c6_setColor_payload_witness :
    setColor (JsVal.num 255) (JsVal.num 128) (JsVal.num 64) =
      ([Effect.serialWrite SW_SERIAL0
          [PayloadElem.str PAYLOAD_HEADER, PayloadElem.str LED_COMMANDS.SETCOLOR,
           PayloadElem.val (JsVal.num 255), PayloadElem.val (JsVal.num 128),
           PayloadElem.val (JsVal.num 64), PayloadElem.str PAYLOAD_FOOTER]], none) ∧
    setColor (JsVal.num 300) (JsVal.num 128) (JsVal.num 64) =
      ([], some BoardError.jsError) :=
  c6_setColor_payload 255 128 64 (by decide) (by decide) (by decide)

/-- An inactive connection attempt (listeners removed) never adds the
board to the model, whatever events arrive later. -/
theorem svcStep_inactive_preserved (st : ServiceState) (e : SvcEvent)
    (hL : st.listenersActive = false) (hA : st.boardAdded = false) :
    (svcStep st e).1.listenersActive = false ∧ (svcStep st e).1.boardAdded = false := by
  cases e <;> simp only [svcStep, hL] <;> try exact ⟨hL, hA⟩
  split <;> exact ⟨by simp [hL], by simp [hA]⟩

theorem svcRun_inactive_no_add (st : ServiceState) (evs : List SvcEvent)
    (hL : st.listenersActive = false) (hA : st.boardAdded = false) :
    (svcRun st evs).1.boardAdded = false := by
  induction evs generalizing st with
  | nil => exact hA
  | cons e es ih =>
    have h := svcStep_inactive_preserved st e hL hA
    simpa [svcRun] using ih (svcStep st e).1 h.1 h.2

/-- Claim C7 (counterexample to the stated behavior): the connection
timeout handler in board-service.ts does not close the link; its effects
are only the warning, removeAllListeners and the failure callback. -/
theorem c7_timeout_never_closes_link :
    ServiceEffect.closeLink ∉ (svcStep initialServiceState SvcEvent.timeout).2 := by
  decide

/-- Claim C7 (amended): if the 10 second connection timeout fires before
the ready event, the handler removes all listeners from the link, invokes
the connect-callback with a negative outcome, and the board is never
added to the roster afterwards; the link itself is not closed. -/
theorem c7_timeout_amended (st : ServiceState) (evs : List SvcEvent)
    (hadd : st.boardAdded = false) (hp : st.timeoutPending = true) :
    (svcStep st SvcEvent.timeout).2 =
      [ServiceEffect.logWarn, ServiceEffect.removeAllListeners,
       ServiceEffect.invokeConnectedCallback false] ∧
    (svcStep st SvcEvent.timeout).1.listenersActive = false ∧
    (svcRun (svcStep st SvcEvent.timeout).1 evs).1.boardAdded = false := by
  have h1 : (svcStep st SvcEvent.timeout).1.listenersActive = false := by
    simp [svcStep, hp]
  have h2 : (svcStep st SvcEvent.timeout).1.boardAdded = false := by
    simp [svcStep, hp, hadd]
  exact ⟨by simp [svcStep, hp], h1, svcRun_inactive_no_add _ evs h1 h2⟩

/-- Claim C7 witness: the timeout fires on the initial connection state;
even if queryfirmware and ready events arrive afterwards the board is
not added. -/
theorem c7_timeout_amended_witness :
    (svcStep initialServiceState SvcEvent.timeout).2 =
      [ServiceEffect.logWarn, ServiceEffect.removeAllListeners,
       ServiceEffect.invokeConnectedCallback false] ∧
    (svcStep initialServiceState SvcEvent.timeout).1.listenersActive = false ∧
    (svcRun (svcStep initialServiceState SvcEvent.timeout).1
      [SvcEvent.queryfirmware, SvcEvent.ready]).1.boardAdded = false :=
  c7_timeout_amended initialServiceState [SvcEvent.queryfirmware, SvcEvent.ready] rfl rfl

/-- Claim C8 (evaluation of the code at the failing input): clearing a
timer that is not in the tracked list is not a no-op; because indexOf
returns -1 and splice(-1, 1) removes the last element, clearing the
untracked handle 9 (or the null handle) removes the tracked handle 7 from
the list. -/
theorem c8_clear_untracked_timer_removes_last :
    (clearInterval c8State (some 9)).intervals = [] ∧
    (clearTimeout c8State none).timeouts = [] := by
  decide

/-- Claim C9: for a digital pin, setPinValue with a value other than 1
(HIGH) or 0 (LOW) performs no digital write and only logs a warning,
while value 1 or 0 performs exactly one digitalWrite with that value; in
both cases an update is emitted afterwards. -/
theorem c9_setPinValue_digital (pins : List Pin) (i : Nat) (v : Int)
    (hd : isDigitalPin pins (JsVal.num (i : Int)) = some true) :
    ((v ≠ 1 ∧ v ≠ 0) →
      setPinValue pins (JsVal.num (i : Int)) (JsVal.num v) =
        ([Effect.warn, Effect.emitUpdate], none)) ∧
    ((v = 1 ∨ v = 0) →
      setPinValue pins (JsVal.num (i : Int)) (JsVal.num v) =
        ([Effect.digitalWrite (JsVal.num (i : Int)) (JsVal.num v), Effect.emitUpdate], none)) := by
  have ha := isDigitalPin_not_analog pins (JsVal.num (i : Int)) hd
  constructor
  · intro hv
    simp [setPinValue, ha, hd, hv.1, hv.2]
  · intro hv
    rcases hv with rfl | rfl <;> simp [setPinValue, ha, hd]

/-- Claim C9 witness: on a board whose pin 0 is digital, value 2 only
warns and emits an update, value 1 performs the digital write and emits
an update. -/
theorem c9_setPinValue_digital_witness :
    isDigitalPin [digitalPin] (JsVal.num 0) = some true ∧
    setPinValue [digitalPin] (JsVal.num 0) (JsVal.num 2) =
      ([Effect.warn, Effect.emitUpdate], none) ∧
    setPinValue [digitalPin] (JsVal.num 0) (JsVal.num 1) =
      ([Effect.digitalWrite (JsVal.num 0) (JsVal.num 1), Effect.emitUpdate], none) :=
  ⟨by decide,
   (c9_setPinValue_digital [digitalPin] 0 2 (by decide)).1 (by decide),
   (c9_setPinValue_digital [digitalPin] 0 1 (by decide)).2 (Or.inl rfl)⟩

/-- Claim C10: the discrete snapshot's pins array contains exactly the
pins with a non-empty supportedModes list, each tagged with pinNumber
equal to its index and analog true iff its analogChannel differs from
127; the commands array equals the keys of the session's action table. -/
theorem c10_toDiscrete_pins_commands (st : BoardState) (id nm : String) (dp : DiscretePin) :
    (dp ∈ (toDiscrete st id nm).pins ↔
      ∃ p : Pin, st.pins[dp.pinNumber]? = some p ∧ 0 < p.supportedModes.length ∧
        dp = toDiscretePin dp.pinNumber p) ∧
    (toDiscrete st id nm).commands = getAvailableActions := by
  refine ⟨?_, rfl⟩
  show dp ∈ toDiscretePins st.pins ↔ _
  unfold toDiscretePins
  rw [List.mem_filter]
  constructor
  · rintro ⟨hmem, hfil⟩
    rw [List.mem_map] at hmem
    obtain ⟨⟨i, p⟩, hip, hdp⟩ := hmem
    rw [List.mem_enum_iff_getElem?] at hip
    have hpn : dp.pinNumber = i := by rw [← hdp]; rfl
    have hsm : dp.supportedModes = p.supportedModes := by rw [← hdp]; rfl
    refine ⟨p, by rw [hpn]; exact hip, ?_, by rw [hpn, ← hdp]⟩
    rw [← hsm]
    simpa using hfil
  · rintro ⟨p, hget, hlen, hdp⟩
    refine ⟨?_, ?_⟩
    · rw [List.mem_map]
      exact ⟨(dp.pinNumber, p), List.mem_enum_iff_getElem?.mpr hget, hdp.symm⟩
    · have hsm : dp.supportedModes = p.supportedModes := by rw [hdp]; rfl
      simpa [hsm] using hlen

/-- Claim C10 witness: the commands of a concrete snapshot are the four
generic action names. -/
theorem c10_toDiscrete_pins_commands_witness :
    (toDiscrete c10State "b1" "dev").commands = getAvailableActions :=
  (c10_toDiscrete_pins_commands c10State "b1" "dev"
    (toDiscretePin 0 digitalPin)).2
